import Mathlib

set_option autoImplicit false

/-
Shallow embedding of src/ProjFS.Mac/PrjFSKext/PrjFSKext/KauthHandler.cpp:
the kauth decision gate (HandleVnodeOperation), the vnode-type classifier
(ShouldIgnoreVnodeType), the crawler heuristic (IsFileSystemCrawler), the
outstanding-message registry with response delivery
(KauthHandler_HandleKernelMessageResponse), the blocking round trip
(TrySendRequestAndWaitForResponse) and a small-step trace model of the
mutex-protected registry operations (each mutex-held critical section of the
C code is one atomic step of KextStep).
-/

-- Verdict constants from sys/kauth.h (OS header; values fixed by the platform ABI).
def KAUTH_RESULT_ALLOW : Nat := 1

def KAUTH_RESULT_DENY : Nat := 2

def KAUTH_RESULT_DEFER : Nat := 3

-- Vnode access right bits from sys/kauth.h (OS header).
def KAUTH_VNODE_READ_DATA : Nat := 2 ^ 1

def KAUTH_VNODE_LIST_DIRECTORY : Nat := KAUTH_VNODE_READ_DATA

def KAUTH_VNODE_WRITE_DATA : Nat := 2 ^ 2

def KAUTH_VNODE_EXECUTE : Nat := 2 ^ 3

def KAUTH_VNODE_SEARCH : Nat := KAUTH_VNODE_EXECUTE

def KAUTH_VNODE_DELETE : Nat := 2 ^ 4

def KAUTH_VNODE_APPEND_DATA : Nat := 2 ^ 5

def KAUTH_VNODE_DELETE_CHILD : Nat := 2 ^ 6

def KAUTH_VNODE_READ_ATTRIBUTES : Nat := 2 ^ 7

def KAUTH_VNODE_WRITE_ATTRIBUTES : Nat := 2 ^ 8

def KAUTH_VNODE_READ_EXTATTRIBUTES : Nat := 2 ^ 9

def KAUTH_VNODE_WRITE_EXTATTRIBUTES : Nat := 2 ^ 10

def KAUTH_VNODE_READ_SECURITY : Nat := 2 ^ 11

def KAUTH_VNODE_WRITE_SECURITY : Nat := 2 ^ 12

def KAUTH_VNODE_LINKTARGET : Nat := 2 ^ 25

def KAUTH_VNODE_ACCESS : Nat := 2 ^ 31

-- errno value on macOS (errno.h): the retryable error code written by the
-- round trip on a provider-reported failure.
def EAGAIN : Nat := 35

-- enum vtype values from sys/vnode.h (OS header); vnode types are modelled as
-- the numeric enum values so that out-of-range values (the switch default)
-- are representable.
def VNON : Nat := 0

def VREG : Nat := 1

def VDIR : Nat := 2

def VBLK : Nat := 3

def VCHR : Nat := 4

def VLNK : Nat := 5

def VSOCK : Nat := 6

def VFIFO : Nat := 7

def VBAD : Nat := 8

def VSTR : Nat := 9

def VCPLX : Nat := 10

/-- Modelled from the spec: PrjFSCommon.h is not under src; the spec (sec 2,
"Flag Reader") names two persistent per-node flag bits, InVirtualizationRoot
and Empty. Only their identity as two distinct single bits is used. -/
def FileFlags_IsInVirtualizationRoot : Nat := 2 ^ 3

/-- Modelled from the spec: the Empty (unhydrated placeholder) flag bit, the
second of the two distinct flag bits read by the gate. -/
def FileFlags_IsEmpty : Nat := 2 ^ 4

-- KauthHandler.cpp FileFlagsBitIsSet: 0 != (fileFlags & bit).
def FileFlagsBitIsSet (fileFlags bit : Nat) : Bool :=
  fileFlags &&& bit != 0

-- KauthHandler.cpp ActionBitIsSet: action & mask (as a boolean).
def ActionBitIsSet (action mask : Nat) : Bool :=
  action &&& mask != 0

-- KauthHandler.cpp ActionBitsNotSet: 0 == (action & mask).
def ActionBitsNotSet (action mask : Nat) : Bool :=
  action &&& mask == 0

-- KauthHandler.cpp IsFileSystemCrawler: strcmp against the five crawler names.
def IsFileSystemCrawler (procname : String) : Bool :=
  procname == "mds" || procname == "mdworker" || procname == "mds_stores" ||
    procname == "fseventsd" || procname == "Spotlight"

-- KauthHandler.cpp ShouldIgnoreVnodeType: the switch over the vnode type.
-- VNON/VBLK/VCHR/VSOCK/VFIFO/VBAD are ignored; VREG/VDIR/VLNK are handled;
-- VSTR/VCPLX and the default case log and return false (NOT ignored).
def ShouldIgnoreVnodeType (vnodeType : Nat) : Bool :=
  if vnodeType = VNON ∨ vnodeType = VBLK ∨ vnodeType = VCHR ∨ vnodeType = VSOCK ∨
      vnodeType = VFIFO ∨ vnodeType = VBAD then
    true
  else if vnodeType = VREG ∨ vnodeType = VDIR ∨ vnodeType = VLNK then
    false
  else if vnodeType = VSTR ∨ vnodeType = VCPLX then
    false
  else
    false

-- Which vnode types cause a KextLog_Info call inside ShouldIgnoreVnodeType:
-- the VSTR/VCPLX case and the default (unknown value) case of the switch.
def VnodeTypeIsLoggedByClassifier (vnodeType : Nat) : Bool :=
  if vnodeType = VNON ∨ vnodeType = VBLK ∨ vnodeType = VCHR ∨ vnodeType = VSOCK ∨
      vnodeType = VFIFO ∨ vnodeType = VBAD then
    false
  else if vnodeType = VREG ∨ vnodeType = VDIR ∨ vnodeType = VLNK then
    false
  else
    true

/-- Modelled from the spec: Message.h is not under src; the spec (sec 3 and 6)
names the request kinds EnumerateDirectory and HydrateFile, the response kinds
Success and Fail, user-to-kernel lifecycle messages, and an invalid value. -/
inductive MessageType where
  | Invalid
  | UtoK_StartVirtualizationInstance
  | UtoK_StopVirtualizationInstance
  | KtoU_EnumerateDirectory
  | KtoU_HydrateFile
  | Response_Success
  | Response_Fail
  deriving DecidableEq

-- KauthHandler.cpp struct OutstandingMessage: the request header is reduced to
-- its messageId (the only header field the registry logic reads), plus the
-- response and receivedResponse fields written by response delivery.
structure OutstandingMessage where
  messageId : Nat
  response : MessageType
  receivedResponse : Bool
  deriving DecidableEq

-- Body of the LIST_FOREACH loop in KauthHandler_HandleKernelMessageResponse:
-- walk the registry, update the first record whose messageId matches (copy the
-- response, set receivedResponse, wake its thread, then break). Returns the
-- updated registry and the list of record ids passed to wakeup.
def DeliverToFirstMatch (messageId : Nat) (responseType : MessageType) :
    List OutstandingMessage → List OutstandingMessage × List Nat
  | [] => ([], [])
  | m :: rest =>
    if m.messageId = messageId then
      ({ m with response := responseType, receivedResponse := true } :: rest, [m.messageId])
    else
      let r := DeliverToFirstMatch messageId responseType rest
      (m :: r.1, r.2)

-- KauthHandler.cpp KauthHandler_HandleKernelMessageResponse: the switch runs
-- the registry scan only for Response_Success and Response_Fail; every other
-- response type falls through to the bare return. Returns the registry after
-- the call together with the ids of the records that were woken.
def KauthHandler_HandleKernelMessageResponse (messageId : Nat) (responseType : MessageType)
    (registry : List OutstandingMessage) : List OutstandingMessage × List Nat :=
  match responseType with
  | .Response_Success => DeliverToFirstMatch messageId responseType registry
  | .Response_Fail => DeliverToFirstMatch messageId responseType registry
  | _ => (registry, [])

-- VirtualizationRoots.hpp VirtualizationRoot, reduced to the fields read by
-- KauthHandler.cpp: index (int16_t), providerUserClient (a pointer, modelled
-- by whether it is non-null) and providerPid.
structure VirtualizationRoot where
  index : Int
  hasProviderUserClient : Bool
  providerPid : Nat
  deriving DecidableEq

-- Outcome of the decision gate: either a final kauth verdict decided without
-- opening a round trip, or the round trip that HandleVnodeOperation opens
-- (the verdict then comes from TrySendRequestAndWaitForResponse).
inductive VnodeDecision where
  | verdict (kauthResult : Nat)
  | roundTrip (messageType : MessageType)
  deriving DecidableEq

-- Inputs of one HandleVnodeOperation invocation, after resolving the external
-- collaborators: the allowed-filesystem test, vnode_vtype, the file flags read
-- by ReadVNodeFileFlags, GetPid, proc_name, the kauth action bits and the
-- result of VirtualizationRoots_FindForVnode.
structure VnodeOperationArgs where
  onAllowedFilesystem : Bool
  vnodeType : Nat
  fileFlags : Nat
  pid : Nat
  procname : String
  action : Nat
  root : Option VirtualizationRoot
  deriving DecidableEq

-- KauthHandler.cpp HandleVnodeOperation, lines 144-340. Goto-based early exits
-- become the branches of this decision; the nested crawler check (empty flag
-- set, then crawler name) is written as one conjunction because the C code
-- falls through to the root lookup when either test fails.
def HandleVnodeOperation (args : VnodeOperationArgs) : VnodeDecision :=
  if !args.onAllowedFilesystem then
    .verdict KAUTH_RESULT_DEFER
  else if ShouldIgnoreVnodeType args.vnodeType then
    .verdict KAUTH_RESULT_DEFER
  else if !FileFlagsBitIsSet args.fileFlags FileFlags_IsInVirtualizationRoot then
    .verdict KAUTH_RESULT_DEFER
  else if FileFlagsBitIsSet args.fileFlags FileFlags_IsEmpty &&
      IsFileSystemCrawler args.procname then
    .verdict KAUTH_RESULT_DENY
  else
    match args.root with
    | none => .verdict KAUTH_RESULT_DEFER
    | some root =>
      if !root.hasProviderUserClient then
        if 0 ≤ root.index then
          if ActionBitsNotSet args.action KAUTH_VNODE_ACCESS &&
              ActionBitIsSet args.action
                (KAUTH_VNODE_WRITE_ATTRIBUTES ||| KAUTH_VNODE_WRITE_EXTATTRIBUTES |||
                  KAUTH_VNODE_WRITE_DATA ||| KAUTH_VNODE_APPEND_DATA |||
                  KAUTH_VNODE_WRITE_SECURITY ||| KAUTH_VNODE_LINKTARGET) then
            .verdict KAUTH_RESULT_DENY
          else if FileFlagsBitIsSet args.fileFlags FileFlags_IsEmpty then
            if ActionBitIsSet args.action
                (KAUTH_VNODE_ACCESS ||| KAUTH_VNODE_DELETE_CHILD ||| KAUTH_VNODE_DELETE |||
                  KAUTH_VNODE_READ_EXTATTRIBUTES) then
              .verdict KAUTH_RESULT_DEFER
            else if (args.vnodeType == VDIR) && ActionBitIsSet args.action
                (KAUTH_VNODE_READ_ATTRIBUTES ||| KAUTH_VNODE_READ_SECURITY |||
                  KAUTH_VNODE_LIST_DIRECTORY ||| KAUTH_VNODE_SEARCH) then
              .verdict KAUTH_RESULT_DEFER
            else
              .verdict KAUTH_RESULT_DENY
          else
            .verdict KAUTH_RESULT_DEFER
        else
          .verdict KAUTH_RESULT_DEFER
      else if args.pid = root.providerPid then
        .verdict KAUTH_RESULT_DEFER
      else if args.vnodeType = VDIR then
        if ActionBitIsSet args.action
            (KAUTH_VNODE_LIST_DIRECTORY ||| KAUTH_VNODE_SEARCH ||| KAUTH_VNODE_READ_SECURITY |||
              KAUTH_VNODE_READ_ATTRIBUTES ||| KAUTH_VNODE_READ_EXTATTRIBUTES) &&
            FileFlagsBitIsSet args.fileFlags FileFlags_IsEmpty then
          .roundTrip .KtoU_EnumerateDirectory
        else
          .verdict KAUTH_RESULT_DEFER
      else
        if ActionBitIsSet args.action
            (KAUTH_VNODE_READ_ATTRIBUTES ||| KAUTH_VNODE_WRITE_ATTRIBUTES |||
              KAUTH_VNODE_READ_EXTATTRIBUTES ||| KAUTH_VNODE_WRITE_EXTATTRIBUTES |||
              KAUTH_VNODE_READ_DATA ||| KAUTH_VNODE_WRITE_DATA ||| KAUTH_VNODE_EXECUTE) &&
            FileFlagsBitIsSet args.fileFlags FileFlags_IsEmpty then
          .roundTrip .KtoU_HydrateFile
        else
          .verdict KAUTH_RESULT_DEFER

-- How the wait loop of TrySendRequestAndWaitForResponse ends when it runs:
-- either a matching delivery set receivedResponse (the final re-read of the
-- shutdown flag after the loop is recorded alongside), or the loop ended
-- because the shutdown flag alone became true.
inductive WaitOutcome where
  | responded (response : MessageType) (shutdownObservedAfter : Bool)
  | shutdownOnly
  deriving DecidableEq

-- Observable outcome of one TrySendRequestAndWaitForResponse call: the bool
-- return value, the values written through the kauthResult and kauthError out
-- parameters (none = never written), whether the mutex-protected check saw no
-- shutdown and inserted the record, whether control reached the while loop,
-- whether control reached the CleanupAndReturn LIST_REMOVE, and the registry
-- contents at the moment of that LIST_REMOVE.
structure RoundTripResult where
  returned : Bool
  kauthResult : Nat
  kauthError : Option Nat
  inserted : Bool
  reachedWaitLoop : Bool
  reachedListRemove : Bool
  registryBeforeRemove : List OutstandingMessage
  deriving DecidableEq

-- KauthHandler.cpp TrySendRequestAndWaitForResponse, lines 374-458.
-- pathResolvable models vn_getpath succeeding; isShuttingDownAtCheck is the
-- single read of s_isShuttingDown inside the mutex-protected check-and-insert;
-- sendSucceeded models ActiveProvider_SendMessage returning 0; outcome models
-- how the wait loop ends when it runs; registry is the registry contents the
-- surrounding threads leave for this call at the start of the critical
-- section. Because s_isShuttingDown is monotone (set once, never cleared), a
-- call that saw shutdown at the check also sees it at the post-loop re-read.
def TrySendRequestAndWaitForResponse (pathResolvable isShuttingDownAtCheck sendSucceeded : Bool)
    (outcome : WaitOutcome) (messageId : Nat) (registry : List OutstandingMessage) :
    RoundTripResult :=
  if !pathResolvable then
    { returned := false, kauthResult := KAUTH_RESULT_DENY, kauthError := none,
      inserted := false, reachedWaitLoop := false, reachedListRemove := false,
      registryBeforeRemove := registry }
  else
    let msg : OutstandingMessage :=
      { messageId := messageId, response := .Invalid, receivedResponse := false }
    let inserted := !isShuttingDownAtCheck
    let registryAfterInsert := if inserted then msg :: registry else registry
    if inserted && !sendSucceeded then
      { returned := false, kauthResult := KAUTH_RESULT_DEFER, kauthError := none,
        inserted := inserted, reachedWaitLoop := false, reachedListRemove := true,
        registryBeforeRemove := registryAfterInsert }
    else
      let finalShutdown := isShuttingDownAtCheck ||
        (match outcome with
          | .responded _ shutdownObservedAfter => shutdownObservedAfter
          | .shutdownOnly => true)
      let registryAtRemove :=
        if inserted then
          match outcome with
          | .responded resp _ =>
            { msg with response := resp, receivedResponse := true } :: registry
          | .shutdownOnly => msg :: registry
        else registry
      if finalShutdown then
        { returned := false, kauthResult := KAUTH_RESULT_DENY, kauthError := none,
          inserted := inserted, reachedWaitLoop := true, reachedListRemove := true,
          registryBeforeRemove := registryAtRemove }
      else
        match outcome with
        | .responded resp _ =>
          if resp = .Response_Success then
            { returned := true, kauthResult := KAUTH_RESULT_DEFER, kauthError := none,
              inserted := inserted, reachedWaitLoop := true, reachedListRemove := true,
              registryBeforeRemove := registryAtRemove }
          else
            { returned := false, kauthResult := KAUTH_RESULT_DENY, kauthError := some EAGAIN,
              inserted := inserted, reachedWaitLoop := true, reachedListRemove := true,
              registryBeforeRemove := registryAtRemove }
        | .shutdownOnly =>
          { returned := false, kauthResult := KAUTH_RESULT_DENY, kauthError := none,
            inserted := inserted, reachedWaitLoop := true, reachedListRemove := true,
            registryBeforeRemove := registryAtRemove }

-- LIST_REMOVE modelled at the registry level: drop the first record with the
-- given id (the records are stack-owned and ids are unique in practice).
def RemoveById (messageId : Nat) : List OutstandingMessage → List OutstandingMessage
  | [] => []
  | m :: rest => if m.messageId = messageId then rest else m :: RemoveById messageId rest

-- Shared mutable state of KauthHandler.cpp: the shutdown flag and the
-- outstanding-message registry, both only touched with the mutex held.
structure KextState where
  isShuttingDown : Bool
  registry : List OutstandingMessage
  deriving DecidableEq

-- One mutex-protected critical section of KauthHandler.cpp, as an atomic
-- event: the check-and-insert of TrySendRequestAndWaitForResponse (lines
-- 405-414), a response delivery, the CleanupAndReturn removal, or the
-- flag-setting broadcast of AbortAllOutstandingEvents (lines 463-473).
inductive KextEvent where
  | insertPhase (msg : OutstandingMessage)
  | deliver (messageId : Nat) (responseType : MessageType)
  | remove (messageId : Nat)
  | abort
  deriving DecidableEq

-- Atomic effect of each critical section on the shared state. insertPhase
-- reads s_isShuttingDown once and inserts only when it is false; abort sets
-- the flag (and wakes every registered record); deliver and remove run the
-- corresponding registry operations. Nothing ever clears the flag.
def KextStep (s : KextState) : KextEvent → KextState
  | .insertPhase msg =>
    if s.isShuttingDown then s else { s with registry := msg :: s.registry }
  | .deliver messageId responseType =>
    { s with
      registry := (KauthHandler_HandleKernelMessageResponse messageId responseType s.registry).1 }
  | .remove messageId => { s with registry := RemoveById messageId s.registry }
  | .abort => { s with isShuttingDown := true }

-- Run a sequence of critical sections from a state.
def KextRun (s : KextState) (events : List KextEvent) : KextState :=
  events.foldl KextStep s

-- Ids of the records currently linked into the registry.
def RegistryIds (registry : List OutstandingMessage) : List Nat :=
  registry.map OutstandingMessage.messageId

-- Helper lemmas about the registry scan and the trace model. These are shared
-- infrastructure; claim theorems follow below.

theorem deliverToFirstMatch_of_mem_head (messageId : Nat) (responseType : MessageType)
    (pre post : List OutstandingMessage) (r : OutstandingMessage)
    (hr : r.messageId = messageId) (hpre : ∀ m ∈ pre, m.messageId ≠ messageId) :
    DeliverToFirstMatch messageId responseType (pre ++ r :: post) =
      (pre ++ { r with response := responseType, receivedResponse := true } :: post,
        [messageId]) := by
  induction pre with
  | nil => simp [DeliverToFirstMatch, hr]
  | cons m rest ih =>
    have hm : m.messageId ≠ messageId := hpre m (by simp)
    have ih' := ih (fun x hx => hpre x (by simp [hx]))
    simp [DeliverToFirstMatch, hm, ih']

theorem deliverToFirstMatch_of_not_mem (messageId : Nat) (responseType : MessageType)
    (registry : List OutstandingMessage) (h : ∀ m ∈ registry, m.messageId ≠ messageId) :
    DeliverToFirstMatch messageId responseType registry = (registry, []) := by
  induction registry with
  | nil => simp [DeliverToFirstMatch]
  | cons m rest ih =>
    have hm : m.messageId ≠ messageId := h m (by simp)
    have ih' := ih (fun x hx => h x (by simp [hx]))
    simp [DeliverToFirstMatch, hm, ih']

theorem registryIds_deliverToFirstMatch (messageId : Nat) (responseType : MessageType)
    (registry : List OutstandingMessage) :
    RegistryIds (DeliverToFirstMatch messageId responseType registry).1 =
      RegistryIds registry := by
  induction registry with
  | nil => simp [DeliverToFirstMatch]
  | cons m rest ih =>
    by_cases hm : m.messageId = messageId
    · simp [DeliverToFirstMatch, hm, RegistryIds]
    · simpa [DeliverToFirstMatch, hm, RegistryIds] using ih

theorem registryIds_handleResponse (messageId : Nat) (responseType : MessageType)
    (registry : List OutstandingMessage) :
    RegistryIds (KauthHandler_HandleKernelMessageResponse messageId responseType registry).1 =
      RegistryIds registry := by
  cases responseType <;>
    simp [KauthHandler_HandleKernelMessageResponse, registryIds_deliverToFirstMatch]

theorem registryIds_removeById_subset (messageId : Nat) (registry : List OutstandingMessage) :
    RegistryIds (RemoveById messageId registry) ⊆ RegistryIds registry := by
  induction registry with
  | nil => simp [RemoveById]
  | cons m rest ih =>
    by_cases hm : m.messageId = messageId
    · simp only [RemoveById, hm, if_pos, RegistryIds, List.map_cons]
      exact List.subset_cons_of_subset _ (fun x hx => hx)
    · simp only [RemoveById, hm, if_neg, not_false_iff, RegistryIds, List.map_cons]
      exact List.cons_subset_cons _ ih

theorem kextStep_shutdown (s : KextState) (e : KextEvent) (h : s.isShuttingDown = true) :
    (KextStep s e).isShuttingDown = true ∧
      RegistryIds (KextStep s e).registry ⊆ RegistryIds s.registry := by
  cases e with
  | insertPhase msg =>
    refine ⟨by simp [KextStep, h], ?_⟩
    simp only [KextStep, h, if_pos]
    exact fun x hx => hx
  | deliver messageId responseType =>
    refine ⟨h, ?_⟩
    simp only [KextStep, registryIds_handleResponse]
    exact fun x hx => hx
  | remove messageId => exact ⟨h, registryIds_removeById_subset _ _⟩
  | abort => exact ⟨rfl, fun x hx => hx⟩

theorem kextRun_shutdown_invariant (events : List KextEvent) (s : KextState)
    (h : s.isShuttingDown = true) :
    (KextRun s events).isShuttingDown = true ∧
      RegistryIds (KextRun s events).registry ⊆ RegistryIds s.registry := by
  induction events generalizing s with
  | nil => exact ⟨h, fun x hx => hx⟩
  | cons e rest ih =>
    have hstep := kextStep_shutdown s e h
    have hr := ih (KextStep s e) hstep.1
    refine ⟨by simpa [KextRun] using hr.1, ?_⟩
    have hsub : RegistryIds (KextRun (KextStep s e) rest).registry ⊆
        RegistryIds (KextStep s e).registry := hr.2
    simpa [KextRun] using hsub.trans hstep.2

-- Claim theorems. Each claim id of the specification audit is settled by
-- exactly one theorem below (plus a counterexample theorem when the claim as
-- stated fails, and a witness when the theorem carries hypotheses).

/-- Claim C1, counterexample: the claim states that every operation whose
vnode type is not VREG/VDIR/VLNK is deferred without any further
classification, and that exotic types (VSTR, VCPLX, unknown) are likewise
defaulted to defer. In the code ShouldIgnoreVnodeType returns false for VSTR,
so classification continues: an operation on a VSTR node with the Empty flag
set issued by the crawler process mds is DENIED, not deferred. -/
theorem c1_exotic_vnode_type_counterexample :
    (VSTR ≠ VREG ∧ VSTR ≠ VDIR ∧ VSTR ≠ VLNK) ∧
    ShouldIgnoreVnodeType VSTR = false ∧
    HandleVnodeOperation
      { onAllowedFilesystem := true, vnodeType := VSTR,
        fileFlags := FileFlags_IsInVirtualizationRoot ||| FileFlags_IsEmpty,
        pid := 501, procname := "mds", action := KAUTH_VNODE_READ_DATA, root := none } =
      .verdict KAUTH_RESULT_DENY ∧
    VnodeDecision.verdict KAUTH_RESULT_DENY ≠ VnodeDecision.verdict KAUTH_RESULT_DEFER := by
  decide

/-- Claim C1, amended: only the node types VNON, VBLK, VCHR, VSOCK, VFIFO and
VBAD make HandleVnodeOperation return the defer verdict without any further
classification, flag reading or round trip; the exotic or unknown node types
(VSTR, VCPLX, and any value outside the vtype enum) are logged by the
classifier but NOT ignored: ShouldIgnoreVnodeType returns false for them and
processing continues exactly as for the recognized types. -/
theorem c1_amended_ignored_vnode_types (args : VnodeOperationArgs)
    (h : args.vnodeType = VNON ∨ args.vnodeType = VBLK ∨ args.vnodeType = VCHR ∨
      args.vnodeType = VSOCK ∨ args.vnodeType = VFIFO ∨ args.vnodeType = VBAD) :
    HandleVnodeOperation args = .verdict KAUTH_RESULT_DEFER ∧
    ShouldIgnoreVnodeType VSTR = false ∧ ShouldIgnoreVnodeType VCPLX = false ∧
    VnodeTypeIsLoggedByClassifier VSTR = true ∧ VnodeTypeIsLoggedByClassifier VCPLX = true ∧
    ∀ t : Nat, 11 ≤ t →
      ShouldIgnoreVnodeType t = false ∧ VnodeTypeIsLoggedByClassifier t = true := by
  refine ⟨?_, by decide, by decide, by decide, by decide, ?_⟩
  · have hig : ShouldIgnoreVnodeType args.vnodeType = true := by
      rcases h with h | h | h | h | h | h <;>
        simp [ShouldIgnoreVnodeType, h, VNON, VBLK, VCHR, VSOCK, VFIFO, VBAD]
    cases hfs : args.onAllowedFilesystem <;> simp [HandleVnodeOperation, hfs, hig]
  · intro t ht
    have h1 : ¬(t = VNON ∨ t = VBLK ∨ t = VCHR ∨ t = VSOCK ∨ t = VFIFO ∨ t = VBAD) := by
      simp only [VNON, VBLK, VCHR, VSOCK, VFIFO, VBAD]
      omega
    have h2 : ¬(t = VREG ∨ t = VDIR ∨ t = VLNK) := by
      simp only [VREG, VDIR, VLNK]
      omega
    have h3 : ¬(t = VSTR ∨ t = VCPLX) := by
      simp only [VSTR, VCPLX]
      omega
    exact ⟨by simp [ShouldIgnoreVnodeType, h1, h2, h3],
      by simp [VnodeTypeIsLoggedByClassifier, h1, h2]⟩

/-- Claim C1, witness for the amended theorem: a block-device node (VBLK) is
deferred without further classification. -/
theorem c1_amended_witness :
    HandleVnodeOperation
      { onAllowedFilesystem := true, vnodeType := VBLK, fileFlags := 0,
        pid := 1, procname := "cat", action := KAUTH_VNODE_READ_DATA, root := none } =
      .verdict KAUTH_RESULT_DEFER :=
  (c1_amended_ignored_vnode_types
    { onAllowedFilesystem := true, vnodeType := VBLK, fileFlags := 0,
      pid := 1, procname := "cat", action := KAUTH_VNODE_READ_DATA, root := none }
    (by decide)).1

/-- Claim C2, counterexample: the claim states that a round trip that ends
because the shutdown flag was observed while waiting sets the output error
code to EAGAIN. In the code the shutdown path (line 430) only sets the verdict
to KAUTH_RESULT_DENY and never writes the kauthError out parameter: on a round
trip whose wait ends through shutdown, kauthError is left untouched. -/
theorem c2_shutdown_error_code_counterexample :
    (TrySendRequestAndWaitForResponse true false true WaitOutcome.shutdownOnly 7 []).kauthResult =
      KAUTH_RESULT_DENY ∧
    (TrySendRequestAndWaitForResponse true false true WaitOutcome.shutdownOnly 7 []).kauthError =
      none ∧
    ¬(TrySendRequestAndWaitForResponse true false true WaitOutcome.shutdownOnly 7 []).kauthError =
      some EAGAIN := by
  decide

/-- Claim C2, amended: a round trip that ends with a provider response other
than Success yields the Deny verdict with the retryable error code EAGAIN
written to the kauthError out parameter; a round trip that ends because the
shutdown flag was observed while waiting yields the Deny verdict but leaves
the error code unset (the caller's default, a hard permission failure,
applies). -/
theorem c2_amended_fail_response_eagain (resp : MessageType) (messageId : Nat)
    (registry : List OutstandingMessage) (h : resp ≠ MessageType.Response_Success) :
    ((TrySendRequestAndWaitForResponse true false true
        (WaitOutcome.responded resp false) messageId registry).kauthResult =
      KAUTH_RESULT_DENY ∧
     (TrySendRequestAndWaitForResponse true false true
        (WaitOutcome.responded resp false) messageId registry).kauthError = some EAGAIN) ∧
    ((TrySendRequestAndWaitForResponse true false true
        WaitOutcome.shutdownOnly messageId registry).kauthResult = KAUTH_RESULT_DENY ∧
     (TrySendRequestAndWaitForResponse true false true
        WaitOutcome.shutdownOnly messageId registry).kauthError = none) := by
  refine ⟨⟨?_, ?_⟩, ?_, ?_⟩ <;> simp [TrySendRequestAndWaitForResponse, h]

/-- Claim C2, witness for the amended theorem: a Fail response yields Deny
with EAGAIN; a shutdown-terminated wait yields Deny with no error code. -/
theorem c2_amended_witness :
    ((TrySendRequestAndWaitForResponse true false true
        (WaitOutcome.responded MessageType.Response_Fail false) 1 []).kauthResult =
      KAUTH_RESULT_DENY ∧
     (TrySendRequestAndWaitForResponse true false true
        (WaitOutcome.responded MessageType.Response_Fail false) 1 []).kauthError =
      some EAGAIN) ∧
    ((TrySendRequestAndWaitForResponse true false true
        WaitOutcome.shutdownOnly 1 []).kauthResult = KAUTH_RESULT_DENY ∧
     (TrySendRequestAndWaitForResponse true false true
        WaitOutcome.shutdownOnly 1 []).kauthError = none) :=
  c2_amended_fail_response_eagain MessageType.Response_Fail 1 [] (by decide)

/-- Claim C4, code bug: on the control path of TrySendRequestAndWaitForResponse
where the shutdown flag was observed during the mutex-protected check (so the
record was never inserted), control still reaches the CleanupAndReturn
LIST_REMOVE, and at that moment the record is NOT a member of the registry:
with an empty surrounding registry the registry at the remove is empty, so the
LIST_REMOVE operates on a record that was never linked in. -/
theorem c4_remove_reached_without_membership :
    (TrySendRequestAndWaitForResponse true true true WaitOutcome.shutdownOnly 3 []).reachedListRemove =
      true ∧
    (TrySendRequestAndWaitForResponse true true true WaitOutcome.shutdownOnly 3 []).inserted =
      false ∧
    (TrySendRequestAndWaitForResponse true true true WaitOutcome.shutdownOnly 3 []).registryBeforeRemove =
      [] ∧
    ¬3 ∈ RegistryIds
      (TrySendRequestAndWaitForResponse true true true WaitOutcome.shutdownOnly 3 []).registryBeforeRemove := by
  decide

/-- Claim C8: when the record was inserted (no shutdown at the check) but the
transport send fails, the round trip sets the verdict to defer and not deny,
returns false, skips the blocking wait loop entirely, reaches the final
registry removal, and that removal restores the registry to its previous
contents. -/
theorem c8_transport_failure_defers (messageId : Nat) (registry : List OutstandingMessage)
    (outcome : WaitOutcome) :
    (TrySendRequestAndWaitForResponse true false false outcome messageId registry).kauthResult =
      KAUTH_RESULT_DEFER ∧
    ¬(TrySendRequestAndWaitForResponse true false false outcome messageId registry).kauthResult =
      KAUTH_RESULT_DENY ∧
    (TrySendRequestAndWaitForResponse true false false outcome messageId registry).returned =
      false ∧
    (TrySendRequestAndWaitForResponse true false false outcome messageId registry).inserted =
      true ∧
    (TrySendRequestAndWaitForResponse true false false outcome messageId registry).reachedWaitLoop =
      false ∧
    (TrySendRequestAndWaitForResponse true false false outcome messageId registry).reachedListRemove =
      true ∧
    RemoveById messageId
      (TrySendRequestAndWaitForResponse true false false outcome messageId registry).registryBeforeRemove =
      registry := by
  refine ⟨?_, ?_, ?_, ?_, ?_, ?_, ?_⟩ <;>
    simp [TrySendRequestAndWaitForResponse, RemoveById, KAUTH_RESULT_DEFER, KAUTH_RESULT_DENY]

/-- Claim C10: delivering a response whose type is neither Success nor Fail is
a complete no-op of KauthHandler_HandleKernelMessageResponse: the registry is
returned unchanged and no record is woken, even when the id matches a
registered record. -/
theorem c10_non_response_type_noop (messageId : Nat) (responseType : MessageType)
    (registry : List OutstandingMessage)
    (h1 : responseType ≠ MessageType.Response_Success)
    (h2 : responseType ≠ MessageType.Response_Fail) :
    KauthHandler_HandleKernelMessageResponse messageId responseType registry =
      (registry, []) := by
  cases responseType <;> simp_all [KauthHandler_HandleKernelMessageResponse]

/-- Claim C10, witness: a KtoU_HydrateFile value delivered with an id that
matches a registered, still-waiting record changes nothing and wakes nobody. -/
theorem c10_witness :
    KauthHandler_HandleKernelMessageResponse 4 MessageType.KtoU_HydrateFile
      [{ messageId := 4, response := MessageType.Invalid, receivedResponse := false }] =
      ([{ messageId := 4, response := MessageType.Invalid, receivedResponse := false }], []) :=
  c10_non_response_type_noop 4 MessageType.KtoU_HydrateFile
    [{ messageId := 4, response := MessageType.Invalid, receivedResponse := false }]
    (by decide) (by decide)

/-- Claim C3: once the shutdown flag is true, no run of mutex-protected
critical sections (check-and-insert, response delivery, removal, abort) ever
adds a new record id to the registry and the flag stays set; and a round trip
whose atomic check-and-insert observes the shutdown flag does not insert,
produces the Deny verdict and returns false. The check and the insertion are
one atomic KextStep, mirroring the single mutex acquisition around the one
read of s_isShuttingDown and the conditional LIST_INSERT_HEAD. -/
theorem c3_shutdown_blocks_insertion (s : KextState) (events : List KextEvent)
    (pathResolvable sendSucceeded : Bool) (outcome : WaitOutcome) (messageId : Nat)
    (registry : List OutstandingMessage)
    (h : s.isShuttingDown = true) :
    RegistryIds (KextRun s events).registry ⊆ RegistryIds s.registry ∧
    (KextRun s events).isShuttingDown = true ∧
    (TrySendRequestAndWaitForResponse pathResolvable true sendSucceeded outcome
      messageId registry).inserted = false ∧
    (TrySendRequestAndWaitForResponse pathResolvable true sendSucceeded outcome
      messageId registry).kauthResult = KAUTH_RESULT_DENY ∧
    (TrySendRequestAndWaitForResponse pathResolvable true sendSucceeded outcome
      messageId registry).returned = false := by
  have hrun := kextRun_shutdown_invariant events s h
  refine ⟨hrun.2, hrun.1, ?_, ?_, ?_⟩ <;>
    cases pathResolvable <;> simp [TrySendRequestAndWaitForResponse]

/-- Claim C3, witness: from a shut-down state holding one record, running an
insert attempt, an unrelated delivery and an abort adds no record id, keeps
the flag set, and a round trip observing shutdown yields Deny without
inserting. -/
theorem c3_witness :
    RegistryIds (KextRun
      { isShuttingDown := true,
        registry := [{ messageId := 1, response := MessageType.Invalid, receivedResponse := false }] }
      [KextEvent.insertPhase { messageId := 2, response := MessageType.Invalid, receivedResponse := false },
        KextEvent.deliver 1 MessageType.Response_Success, KextEvent.abort]).registry ⊆
      RegistryIds [{ messageId := 1, response := MessageType.Invalid, receivedResponse := false }] ∧
    (KextRun
      { isShuttingDown := true,
        registry := [{ messageId := 1, response := MessageType.Invalid, receivedResponse := false }] }
      [KextEvent.insertPhase { messageId := 2, response := MessageType.Invalid, receivedResponse := false },
        KextEvent.deliver 1 MessageType.Response_Success, KextEvent.abort]).isShuttingDown = true ∧
    (TrySendRequestAndWaitForResponse true true true WaitOutcome.shutdownOnly 2 []).inserted =
      false ∧
    (TrySendRequestAndWaitForResponse true true true WaitOutcome.shutdownOnly 2 []).kauthResult =
      KAUTH_RESULT_DENY ∧
    (TrySendRequestAndWaitForResponse true true true WaitOutcome.shutdownOnly 2 []).returned =
      false :=
  c3_shutdown_blocks_insertion
    { isShuttingDown := true,
      registry := [{ messageId := 1, response := MessageType.Invalid, receivedResponse := false }] }
    [KextEvent.insertPhase { messageId := 2, response := MessageType.Invalid, receivedResponse := false },
      KextEvent.deliver 1 MessageType.Response_Success, KextEvent.abort]
    true true WaitOutcome.shutdownOnly 2 [] rfl

/-- Claim C6: on a node with the Empty flag set, when the calling process name
matches the crawler heuristic, the gate denies, whatever the access bits and
whatever the root lookup would return (the root field of the arguments is
arbitrary here, so the denial is decided before the root state matters). -/
theorem c6_crawler_empty_denied (args : VnodeOperationArgs)
    (hfs : args.onAllowedFilesystem = true)
    (htype : ShouldIgnoreVnodeType args.vnodeType = false)
    (hin : FileFlagsBitIsSet args.fileFlags FileFlags_IsInVirtualizationRoot = true)
    (hempty : FileFlagsBitIsSet args.fileFlags FileFlags_IsEmpty = true)
    (hcrawler : IsFileSystemCrawler args.procname = true) :
    HandleVnodeOperation args = .verdict KAUTH_RESULT_DENY := by
  simp [HandleVnodeOperation, hfs, htype, hin, hempty, hcrawler]

/-- Claim C6, witness: the crawler fseventsd touching an empty node is denied
with no root found, with an offline root, and with a live-provider root. -/
theorem c6_witness :
    HandleVnodeOperation
      { onAllowedFilesystem := true, vnodeType := VREG,
        fileFlags := FileFlags_IsInVirtualizationRoot ||| FileFlags_IsEmpty,
        pid := 88, procname := "fseventsd", action := KAUTH_VNODE_READ_DATA, root := none } =
      .verdict KAUTH_RESULT_DENY ∧
    HandleVnodeOperation
      { onAllowedFilesystem := true, vnodeType := VREG,
        fileFlags := FileFlags_IsInVirtualizationRoot ||| FileFlags_IsEmpty,
        pid := 88, procname := "fseventsd", action := KAUTH_VNODE_READ_DATA,
        root := some { index := 0, hasProviderUserClient := false, providerPid := 9 } } =
      .verdict KAUTH_RESULT_DENY ∧
    HandleVnodeOperation
      { onAllowedFilesystem := true, vnodeType := VDIR,
        fileFlags := FileFlags_IsInVirtualizationRoot ||| FileFlags_IsEmpty,
        pid := 88, procname := "fseventsd", action := KAUTH_VNODE_WRITE_DATA,
        root := some { index := 0, hasProviderUserClient := true, providerPid := 9 } } =
      .verdict KAUTH_RESULT_DENY :=
  ⟨c6_crawler_empty_denied _ rfl (by decide) (by decide) (by decide) (by decide),
    c6_crawler_empty_denied _ rfl (by decide) (by decide) (by decide) (by decide),
    c6_crawler_empty_denied _ rfl (by decide) (by decide) (by decide) (by decide)⟩

/-- Claim C7: delivering a Success or Fail response whose id matches exactly
one registered record copies the response type into that record, sets its
receivedResponse flag and wakes exactly that record's thread, leaving every
other record unchanged; and delivering a Success or Fail response whose id
matches no registered record leaves the registry unchanged and wakes nobody. -/
theorem c7_deliver_response_matches_unique_record (pre post : List OutstandingMessage)
    (r : OutstandingMessage) (messageId : Nat) (responseType : MessageType)
    (hrt : responseType = MessageType.Response_Success ∨
      responseType = MessageType.Response_Fail)
    (hr : r.messageId = messageId)
    (hpre : ∀ m ∈ pre, m.messageId ≠ messageId) :
    KauthHandler_HandleKernelMessageResponse messageId responseType (pre ++ r :: post) =
      (pre ++ { r with response := responseType, receivedResponse := true } :: post,
        [messageId]) ∧
    ∀ registry : List OutstandingMessage, (∀ m ∈ registry, m.messageId ≠ messageId) →
      KauthHandler_HandleKernelMessageResponse messageId responseType registry =
        (registry, []) := by
  rcases hrt with hrt | hrt <;> subst hrt <;>
    exact ⟨deliverToFirstMatch_of_mem_head _ _ _ _ _ hr hpre,
      fun registry hreg => deliverToFirstMatch_of_not_mem _ _ _ hreg⟩

/-- Claim C7, witness: a Success response for id 2 updates exactly the middle
record of a three-record registry and wakes it, and a second delivery of the
same id against a registry that no longer holds it is a no-op. -/
theorem c7_witness :
    KauthHandler_HandleKernelMessageResponse 2 MessageType.Response_Success
      ([{ messageId := 1, response := MessageType.Invalid, receivedResponse := false }] ++
        { messageId := 2, response := MessageType.Invalid, receivedResponse := false } ::
        [{ messageId := 3, response := MessageType.Invalid, receivedResponse := false }]) =
      ([{ messageId := 1, response := MessageType.Invalid, receivedResponse := false },
        { messageId := 2, response := MessageType.Response_Success, receivedResponse := true },
        { messageId := 3, response := MessageType.Invalid, receivedResponse := false }], [2]) ∧
    KauthHandler_HandleKernelMessageResponse 2 MessageType.Response_Success
      [{ messageId := 9, response := MessageType.Invalid, receivedResponse := false }] =
      ([{ messageId := 9, response := MessageType.Invalid, receivedResponse := false }], []) := by
  have h := c7_deliver_response_matches_unique_record
    [{ messageId := 1, response := MessageType.Invalid, receivedResponse := false }]
    [{ messageId := 3, response := MessageType.Invalid, receivedResponse := false }]
    { messageId := 2, response := MessageType.Invalid, receivedResponse := false }
    2 MessageType.Response_Success (Or.inl rfl) rfl (by decide)
  exact ⟨h.1,
    h.2 [{ messageId := 9, response := MessageType.Invalid, receivedResponse := false }]
      (by decide)⟩

/-- Claim C9, counterexample: the claim states that when the calling process
id equals the live provider's process id the verdict is defer regardless of
the Empty flag. In the code the crawler check runs before the provider-pid
check: if the provider's process is named mds and the node's Empty flag is
set, the gate denies, so the claim as stated fails. -/
theorem c9_provider_pid_counterexample :
    HandleVnodeOperation
      { onAllowedFilesystem := true, vnodeType := VREG,
        fileFlags := FileFlags_IsInVirtualizationRoot ||| FileFlags_IsEmpty,
        pid := 42, procname := "mds", action := KAUTH_VNODE_READ_DATA,
        root := some { index := 0, hasProviderUserClient := true, providerPid := 42 } } =
      .verdict KAUTH_RESULT_DENY ∧
    VnodeDecision.verdict KAUTH_RESULT_DENY ≠ VnodeDecision.verdict KAUTH_RESULT_DEFER := by
  decide

/-- Claim C9, amended: on a node owned by a root with a live provider, if the
calling process id equals the provider's process id, the verdict is defer and
no round trip is opened, regardless of node kind, Empty flag or access bits —
except when the Empty flag is set and the provider's process name matches the
crawler heuristic, since that earlier denial fires first. -/
theorem c9_provider_pid_defer (args : VnodeOperationArgs) (root : VirtualizationRoot)
    (hfs : args.onAllowedFilesystem = true)
    (htype : ShouldIgnoreVnodeType args.vnodeType = false)
    (hin : FileFlagsBitIsSet args.fileFlags FileFlags_IsInVirtualizationRoot = true)
    (hnc : ¬(FileFlagsBitIsSet args.fileFlags FileFlags_IsEmpty = true ∧
      IsFileSystemCrawler args.procname = true))
    (hroot : args.root = some root)
    (hlive : root.hasProviderUserClient = true)
    (hpid : args.pid = root.providerPid) :
    HandleVnodeOperation args = .verdict KAUTH_RESULT_DEFER ∧
    ∀ messageType, HandleVnodeOperation args ≠ .roundTrip messageType := by
  have hmain : HandleVnodeOperation args = .verdict KAUTH_RESULT_DEFER := by
    simp [HandleVnodeOperation, hfs, htype, hin, Bool.and_eq_true, hnc, hroot, hlive, hpid]
  exact ⟨hmain, fun messageType hcontra => by simp [hmain] at hcontra⟩

/-- Claim C9, witness: the provider process itself (pid 42) touching an empty
regular file of its own live root is deferred and no round trip is opened. -/
theorem c9_witness :
    HandleVnodeOperation
      { onAllowedFilesystem := true, vnodeType := VREG,
        fileFlags := FileFlags_IsInVirtualizationRoot ||| FileFlags_IsEmpty,
        pid := 42, procname := "gvfs-provider", action := KAUTH_VNODE_WRITE_DATA,
        root := some { index := 0, hasProviderUserClient := true, providerPid := 42 } } =
      .verdict KAUTH_RESULT_DEFER ∧
    HandleVnodeOperation
      { onAllowedFilesystem := true, vnodeType := VREG,
        fileFlags := FileFlags_IsInVirtualizationRoot ||| FileFlags_IsEmpty,
        pid := 42, procname := "gvfs-provider", action := KAUTH_VNODE_WRITE_DATA,
        root := some { index := 0, hasProviderUserClient := true, providerPid := 42 } } ≠
      .roundTrip MessageType.KtoU_HydrateFile :=
  ⟨(c9_provider_pid_defer
      { onAllowedFilesystem := true, vnodeType := VREG,
        fileFlags := FileFlags_IsInVirtualizationRoot ||| FileFlags_IsEmpty,
        pid := 42, procname := "gvfs-provider", action := KAUTH_VNODE_WRITE_DATA,
        root := some { index := 0, hasProviderUserClient := true, providerPid := 42 } }
      { index := 0, hasProviderUserClient := true, providerPid := 42 }
      rfl (by decide) (by decide) (by decide) rfl rfl rfl).1,
    (c9_provider_pid_defer
      { onAllowedFilesystem := true, vnodeType := VREG,
        fileFlags := FileFlags_IsInVirtualizationRoot ||| FileFlags_IsEmpty,
        pid := 42, procname := "gvfs-provider", action := KAUTH_VNODE_WRITE_DATA,
        root := some { index := 0, hasProviderUserClient := true, providerPid := 42 } }
      { index := 0, hasProviderUserClient := true, providerPid := 42 }
      rfl (by decide) (by decide) (by decide) rfl rfl rfl).2
      MessageType.KtoU_HydrateFile⟩

/-- Claim C5, counterexample: the claim states that on a node owned by an
offline root the verdict is defer exactly when the access bits include query
access, delete, delete-child or read extended attributes (among others). But
the crawler check runs before the root is resolved: the crawler process mds
touching an empty placeholder of an offline root with access bits query
access and delete is DENIED, where the claim requires defer. -/
theorem c5_offline_root_counterexample :
    ActionBitIsSet (KAUTH_VNODE_ACCESS ||| KAUTH_VNODE_DELETE)
      (KAUTH_VNODE_ACCESS ||| KAUTH_VNODE_DELETE_CHILD ||| KAUTH_VNODE_DELETE |||
        KAUTH_VNODE_READ_EXTATTRIBUTES) = true ∧
    HandleVnodeOperation
      { onAllowedFilesystem := true, vnodeType := VREG,
        fileFlags := FileFlags_IsInVirtualizationRoot ||| FileFlags_IsEmpty,
        pid := 120, procname := "mds", action := KAUTH_VNODE_ACCESS ||| KAUTH_VNODE_DELETE,
        root := some { index := 0, hasProviderUserClient := false, providerPid := 42 } } =
      .verdict KAUTH_RESULT_DENY ∧
    VnodeDecision.verdict KAUTH_RESULT_DENY ≠ VnodeDecision.verdict KAUTH_RESULT_DEFER := by
  decide

/-- Claim C5, amended: on a node owned by an offline root (found root, no
provider user client, valid root index), provided the earlier crawler denial
does not fire (the Empty flag is clear or the calling process name is not a
crawler name), the gate (1) denies when the access bits contain a
destructive/metadata-write bit and not the pure query-access bit; (2)
otherwise, on an empty placeholder, defers exactly when the bits include query
access, delete, delete-child or read-extended-attributes, or, for directories,
read attributes, read security, list directory or search, and denies every
other access on the empty placeholder; and (3) otherwise, on hydrated
content, defers. -/
theorem c5_offline_root_policy (args : VnodeOperationArgs) (root : VirtualizationRoot)
    (hfs : args.onAllowedFilesystem = true)
    (htype : ShouldIgnoreVnodeType args.vnodeType = false)
    (hin : FileFlagsBitIsSet args.fileFlags FileFlags_IsInVirtualizationRoot = true)
    (hnc : ¬(FileFlagsBitIsSet args.fileFlags FileFlags_IsEmpty = true ∧
      IsFileSystemCrawler args.procname = true))
    (hroot : args.root = some root)
    (hoff : root.hasProviderUserClient = false)
    (hidx : 0 ≤ root.index) :
    ((ActionBitsNotSet args.action KAUTH_VNODE_ACCESS = true ∧
        ActionBitIsSet args.action
          (KAUTH_VNODE_WRITE_ATTRIBUTES ||| KAUTH_VNODE_WRITE_EXTATTRIBUTES |||
            KAUTH_VNODE_WRITE_DATA ||| KAUTH_VNODE_APPEND_DATA |||
            KAUTH_VNODE_WRITE_SECURITY ||| KAUTH_VNODE_LINKTARGET) = true) →
      HandleVnodeOperation args = .verdict KAUTH_RESULT_DENY) ∧
    (¬(ActionBitsNotSet args.action KAUTH_VNODE_ACCESS = true ∧
        ActionBitIsSet args.action
          (KAUTH_VNODE_WRITE_ATTRIBUTES ||| KAUTH_VNODE_WRITE_EXTATTRIBUTES |||
            KAUTH_VNODE_WRITE_DATA ||| KAUTH_VNODE_APPEND_DATA |||
            KAUTH_VNODE_WRITE_SECURITY ||| KAUTH_VNODE_LINKTARGET) = true) →
      FileFlagsBitIsSet args.fileFlags FileFlags_IsEmpty = true →
      ((ActionBitIsSet args.action
          (KAUTH_VNODE_ACCESS ||| KAUTH_VNODE_DELETE_CHILD ||| KAUTH_VNODE_DELETE |||
            KAUTH_VNODE_READ_EXTATTRIBUTES) = true ∨
        (args.vnodeType = VDIR ∧ ActionBitIsSet args.action
          (KAUTH_VNODE_READ_ATTRIBUTES ||| KAUTH_VNODE_READ_SECURITY |||
            KAUTH_VNODE_LIST_DIRECTORY ||| KAUTH_VNODE_SEARCH) = true) →
        HandleVnodeOperation args = .verdict KAUTH_RESULT_DEFER) ∧
      (¬(ActionBitIsSet args.action
          (KAUTH_VNODE_ACCESS ||| KAUTH_VNODE_DELETE_CHILD ||| KAUTH_VNODE_DELETE |||
            KAUTH_VNODE_READ_EXTATTRIBUTES) = true ∨
        (args.vnodeType = VDIR ∧ ActionBitIsSet args.action
          (KAUTH_VNODE_READ_ATTRIBUTES ||| KAUTH_VNODE_READ_SECURITY |||
            KAUTH_VNODE_LIST_DIRECTORY ||| KAUTH_VNODE_SEARCH) = true)) →
        HandleVnodeOperation args = .verdict KAUTH_RESULT_DENY))) ∧
    (¬(ActionBitsNotSet args.action KAUTH_VNODE_ACCESS = true ∧
        ActionBitIsSet args.action
          (KAUTH_VNODE_WRITE_ATTRIBUTES ||| KAUTH_VNODE_WRITE_EXTATTRIBUTES |||
            KAUTH_VNODE_WRITE_DATA ||| KAUTH_VNODE_APPEND_DATA |||
            KAUTH_VNODE_WRITE_SECURITY ||| KAUTH_VNODE_LINKTARGET) = true) →
      FileFlagsBitIsSet args.fileFlags FileFlags_IsEmpty = false →
      HandleVnodeOperation args = .verdict KAUTH_RESULT_DEFER) := by
  refine ⟨?_, ?_, ?_⟩
  · rintro ⟨h1, h2⟩
    simp [HandleVnodeOperation, hfs, htype, hin, Bool.and_eq_true, hnc, hroot, hoff, hidx,
      h1, h2]
  · intro hnd he
    have hcrawl : IsFileSystemCrawler args.procname = false := by
      cases hcw : IsFileSystemCrawler args.procname
      · rfl
      · exact absurd ⟨he, hcw⟩ hnc
    constructor
    · intro hq
      rcases hq with hq1 | ⟨hd, hq2⟩
      · simp [HandleVnodeOperation, hfs, htype, hin, Bool.and_eq_true, hcrawl, hroot, hoff,
          hidx, hnd, he, hq1]
      · by_cases hg : ActionBitIsSet args.action
          (KAUTH_VNODE_ACCESS ||| KAUTH_VNODE_DELETE_CHILD ||| KAUTH_VNODE_DELETE |||
            KAUTH_VNODE_READ_EXTATTRIBUTES) = true
        · simp [HandleVnodeOperation, hfs, htype, hin, Bool.and_eq_true, hcrawl, hroot, hoff,
            hidx, hnd, he, hg]
        · have hg' : ActionBitIsSet args.action
              (KAUTH_VNODE_ACCESS ||| KAUTH_VNODE_DELETE_CHILD ||| KAUTH_VNODE_DELETE |||
                KAUTH_VNODE_READ_EXTATTRIBUTES) = false := by
            simpa using hg
          simp [HandleVnodeOperation, hfs, htype, hin, Bool.and_eq_true, hcrawl, hroot, hoff,
            hidx, hnd, he, hg', hd, hq2]
    · intro hq
      rw [not_or] at hq
      obtain ⟨hq1, hq2⟩ := hq
      have hq1' : ActionBitIsSet args.action
          (KAUTH_VNODE_ACCESS ||| KAUTH_VNODE_DELETE_CHILD ||| KAUTH_VNODE_DELETE |||
            KAUTH_VNODE_READ_EXTATTRIBUTES) = false := by
        simpa using hq1
      simp [HandleVnodeOperation, hfs, htype, hin, Bool.and_eq_true, beq_iff_eq, hnc,
        hroot, hoff, hidx, hnd, he, hq1', hq2]
  · intro hnd he
    simp [HandleVnodeOperation, hfs, htype, hin, Bool.and_eq_true, hnc, hroot, hoff, hidx,
      hnd, he]

/-- Claim C5, witness: on an offline root, an empty directory asked for list
directory access is deferred, and an empty regular file asked for write data
access is denied. -/
theorem c5_witness :
    HandleVnodeOperation
      { onAllowedFilesystem := true, vnodeType := VDIR,
        fileFlags := FileFlags_IsInVirtualizationRoot ||| FileFlags_IsEmpty,
        pid := 501, procname := "ls", action := KAUTH_VNODE_LIST_DIRECTORY,
        root := some { index := 0, hasProviderUserClient := false, providerPid := 42 } } =
      .verdict KAUTH_RESULT_DEFER ∧
    HandleVnodeOperation
      { onAllowedFilesystem := true, vnodeType := VREG,
        fileFlags := FileFlags_IsInVirtualizationRoot ||| FileFlags_IsEmpty,
        pid := 501, procname := "sh", action := KAUTH_VNODE_WRITE_DATA,
        root := some { index := 0, hasProviderUserClient := false, providerPid := 42 } } =
      .verdict KAUTH_RESULT_DENY :=
  ⟨((c5_offline_root_policy
      { onAllowedFilesystem := true, vnodeType := VDIR,
        fileFlags := FileFlags_IsInVirtualizationRoot ||| FileFlags_IsEmpty,
        pid := 501, procname := "ls", action := KAUTH_VNODE_LIST_DIRECTORY,
        root := some { index := 0, hasProviderUserClient := false, providerPid := 42 } }
      { index := 0, hasProviderUserClient := false, providerPid := 42 }
      rfl (by decide) (by decide) (by decide) rfl rfl (by decide)).2.1
      (by decide) (by decide)).1 (Or.inr (by decide)),
    (c5_offline_root_policy
      { onAllowedFilesystem := true, vnodeType := VREG,
        fileFlags := FileFlags_IsInVirtualizationRoot ||| FileFlags_IsEmpty,
        pid := 501, procname := "sh", action := KAUTH_VNODE_WRITE_DATA,
        root := some { index := 0, hasProviderUserClient := false, providerPid := 42 } }
      { index := 0, hasProviderUserClient := false, providerPid := 42 }
      rfl (by decide) (by decide) (by decide) rfl rfl (by decide)).1 (by decide)⟩
